import Mathlib

/-!
Verification development for the sparrow mail-digest bot.

Python strings are modelled as lists of characters (`PyStr`), bytes as
lists of naturals below 256, and machine words as naturals reduced
modulo 2 ^ 32 where the algorithm requires it.  Each definition is a
direct translation of the corresponding function in the repository
(`cache.py`, `ollama_integration.py`, `gmail_api.py`, `history.py`,
`jobs.py`); comments cite the source location.
-/

/-- Python `str`, modelled as a list of characters. -/
abbrev PyStr := List Char

/-- Coerce a Lean string literal to the `PyStr` model. -/
def pystr (s : String) : PyStr := s.data

/-- The whitespace characters recognised by Python `str.split` /
`str.strip` for the ASCII range used by this code base. -/
def pyIsSpace (c : Char) : Bool :=
  c = ' ' || c = '\t' || c = '\n' || c = '\r' || c = Char.ofNat 11 || c = Char.ofNat 12

/-- Python `str.strip()` with no arguments: drop whitespace at both ends. -/
def pyStrip (s : PyStr) : PyStr :=
  ((s.dropWhile pyIsSpace).reverse.dropWhile pyIsSpace).reverse

/-- Python `str.lower()` (ASCII case folding suffices for this code base). -/
def pyLower (s : PyStr) : PyStr := s.map Char.toLower

/-- Python `str.split()` with no arguments: split on whitespace runs,
dropping empty pieces.  Fueled scanner; fuel bounds the number of
characters consumed. -/
def pySplitAux : Nat → PyStr → List PyStr
  | 0, _ => []
  | _ + 1, [] => []
  | fuel + 1, c :: cs =>
    if pyIsSpace c then pySplitAux fuel cs
    else
      let word := (c :: cs).takeWhile (fun d => !pyIsSpace d)
      word :: pySplitAux fuel ((c :: cs).dropWhile (fun d => !pyIsSpace d))

def pySplit (s : PyStr) : List PyStr := pySplitAux s.length s

/-- Python `sep.join(parts)`. -/
def pyJoin (sep : PyStr) : List PyStr → PyStr
  | [] => []
  | [p] => p
  | p :: ps => p ++ sep ++ pyJoin sep ps

/-- Python `needle in hay` on strings: substring containment. -/
def pyIn (needle hay : PyStr) : Bool :=
  (List.range (hay.length + 1)).any fun i => needle.isPrefixOf (hay.drop i)

/-! ## UTF-8 encoding of Python strings -/

/-- UTF-8 encoding of one Unicode scalar value, as bytes. -/
def utf8EncodeChar (c : Char) : List Nat :=
  let n := c.toNat
  if n < 128 then [n]
  else if n < 2048 then [192 + n / 64, 128 + n % 64]
  else if n < 65536 then [224 + n / 4096, 128 + n / 64 % 64, 128 + n % 64]
  else [240 + n / 262144, 128 + n / 4096 % 64, 128 + n / 64 % 64, 128 + n % 64]

/-- Model of the encode call with utf-8 and errors ignore: Lean characters are always
valid scalar values, so nothing is ever dropped. -/
def utf8Encode (s : PyStr) : List Nat := s.flatMap utf8EncodeChar

/-! ## SHA-256 (`hashlib.sha256`), over naturals modulo 2 ^ 32 -/

def w32 (x : Nat) : Nat := x % 4294967296

def rotr32 (n x : Nat) : Nat := w32 ((x >>> n) ||| (x <<< (32 - n)))

def sha256K : List Nat :=
  [1116352408, 1899447441, 3049323471, 3921009573, 961987163, 1508970993,
   2453635748, 2870763221, 3624381080, 310598401, 607225278, 1426881987,
   1925078388, 2162078206, 2614888103, 3248222580, 3835390401, 4022224774,
   264347078, 604807628, 770255983, 1249150122, 1555081692, 1996064986,
   2554220882, 2821834349, 2952996808, 3210313671, 3336571891, 3584528711,
   113926993, 338241895, 666307205, 773529912, 1294757372, 1396182291,
   1695183700, 1986661051, 2177026350, 2456956037, 2730485921, 2820302411,
   3259730800, 3345764771, 3516065817, 3600352804, 4094571909, 275423344,
   430227734, 506948616, 659060556, 883997877, 958139571, 1322822218,
   1537002063, 1747873779, 1955562222, 2024104815, 2227730452, 2361852424,
   2428436474, 2756734187, 3204031479, 3329325298]

structure Sha256State where
  a : Nat
  b : Nat
  c : Nat
  d : Nat
  e : Nat
  f : Nat
  g : Nat
  h : Nat

def sha256H0 : Sha256State :=
  ⟨1779033703, 3144134277, 1013904242, 2773480762,
   1359893119, 2600822924, 528734635, 1541459225⟩

/-- Big-endian bytes of a 32-bit word. -/
def wordBytes (x : Nat) : List Nat :=
  [x >>> 24 % 256, x >>> 16 % 256, x >>> 8 % 256, x % 256]

/-- Big-endian 8-byte encoding of the message bit length. -/
def lenBytes64 (n : Nat) : List Nat :=
  [n >>> 56 % 256, n >>> 48 % 256, n >>> 40 % 256, n >>> 32 % 256,
   n >>> 24 % 256, n >>> 16 % 256, n >>> 8 % 256, n % 256]

/-- SHA-256 padding: append 0x80, zeros to 56 mod 64, then the bit length. -/
def sha256Pad (msg : List Nat) : List Nat :=
  let l := msg.length
  let zeros := (119 - l % 64) % 64
  msg ++ [128] ++ List.replicate zeros 0 ++ lenBytes64 (8 * l)

/-- Split the padded message into 64-byte chunks (fueled, fuel = number
of chunks needed). -/
def chunks64 : Nat → List Nat → List (List Nat)
  | 0, _ => []
  | fuel + 1, l => if l = [] then [] else l.take 64 :: chunks64 fuel (l.drop 64)

/-- Big-endian 4-byte groups to 32-bit words. -/
def bytesToWords : List Nat → List Nat
  | b0 :: b1 :: b2 :: b3 :: rest =>
    (((b0 * 256 + b1) * 256 + b2) * 256 + b3) :: bytesToWords rest
  | _ => []

/-- Message-schedule extension of the 16 chunk words to 64 words. -/
def sha256Schedule (ws : List Nat) : List Nat :=
  (List.range 48).foldl
    (fun acc _ =>
      let i := acc.length
      let w15 := acc.getD (i - 15) 0
      let w2 := acc.getD (i - 2) 0
      let s0 := (rotr32 7 w15) ^^^ (rotr32 18 w15) ^^^ (w15 >>> 3)
      let s1 := (rotr32 17 w2) ^^^ (rotr32 19 w2) ^^^ (w2 >>> 10)
      acc ++ [w32 (acc.getD (i - 16) 0 + s0 + acc.getD (i - 7) 0 + s1)])
    ws

/-- One round of the SHA-256 compression function. -/
def sha256Round (ws : List Nat) (st : Sha256State) (i : Nat) : Sha256State :=
  let s1 := (rotr32 6 st.e) ^^^ (rotr32 11 st.e) ^^^ (rotr32 25 st.e)
  let ch := (st.e &&& st.f) ^^^ ((4294967295 - st.e) &&& st.g)
  let temp1 := w32 (st.h + s1 + ch + sha256K.getD i 0 + ws.getD i 0)
  let s0 := (rotr32 2 st.a) ^^^ (rotr32 13 st.a) ^^^ (rotr32 22 st.a)
  let maj := (st.a &&& st.b) ^^^ (st.a &&& st.c) ^^^ (st.b &&& st.c)
  let temp2 := w32 (s0 + maj)
  ⟨w32 (temp1 + temp2), st.a, st.b, st.c, w32 (st.d + temp1), st.e, st.f, st.g⟩

/-- Process one 64-byte chunk. -/
def sha256Chunk (h : Sha256State) (chunk : List Nat) : Sha256State :=
  let ws := sha256Schedule (bytesToWords chunk)
  let st := (List.range 64).foldl (sha256Round ws) h
  ⟨w32 (h.a + st.a), w32 (h.b + st.b), w32 (h.c + st.c), w32 (h.d + st.d),
   w32 (h.e + st.e), w32 (h.f + st.f), w32 (h.g + st.g), w32 (h.h + st.h)⟩

/-- SHA-256 digest of a byte sequence, as 32 bytes. -/
def sha256Bytes (msg : List Nat) : List Nat :=
  let padded := sha256Pad msg
  let final := (chunks64 (padded.length / 64) padded).foldl sha256Chunk sha256H0
  wordBytes final.a ++ wordBytes final.b ++ wordBytes final.c ++ wordBytes final.d ++
  wordBytes final.e ++ wordBytes final.f ++ wordBytes final.g ++ wordBytes final.h

def hexDigit (n : Nat) : Char := Char.ofNat (if n < 10 then 48 + n else 87 + n)

def byteHex (b : Nat) : List Char := [hexDigit (b / 16), hexDigit (b % 16)]

/-- Model of `hexdigest()`: lowercase hex of the digest bytes. -/
def hexOfBytes (l : List Nat) : PyStr := l.flatMap byteHex

/-! ## `cache.generate_fingerprint` (cache.py lines 31-37) -/

/-- The string `f"{sender}|{subject}|{body}"` built by
`generate_fingerprint`. -/
def fingerprintData (sender subject body : PyStr) : PyStr :=
  sender ++ pystr "|" ++ subject ++ pystr "|" ++ body

/-- Model of `cache.generate_fingerprint`: SHA-256 hex digest of the UTF-8
encoding of `sender|subject|body`. -/
def generate_fingerprint (sender subject body : PyStr) : PyStr :=
  hexOfBytes (sha256Bytes (utf8Encode (fingerprintData sender subject body)))

/-! ## Cache store (`cache.py`): the `message_cache` table -/

/-- One row of the `message_cache` table:
`(fingerprint TEXT PRIMARY KEY, summary TEXT, timestamp INTEGER)`. -/
structure CacheEntry where
  fingerprint : PyStr
  summary : PyStr
  timestamp : Int
deriving DecidableEq

/-- The `message_cache` table; the primary key keeps fingerprints unique
because every write goes through `INSERT OR REPLACE`. -/
abbrev CacheDB := List CacheEntry

/-- Model of `cache.get_cached_summary` (cache.py lines 39-52):
`SELECT summary FROM message_cache WHERE fingerprint = ?`, first row. -/
def get_cached_summary (fp : PyStr) (db : CacheDB) : Option PyStr :=
  (db.find? fun e => e.fingerprint == fp).map CacheEntry.summary

/-- Model of `cache.set_cached_summary` (cache.py lines 54-67):
`INSERT OR REPLACE` deletes the conflicting row (if any) and inserts the
new row with the current timestamp. -/
def set_cached_summary (fp summary : PyStr) (now : Int) (db : CacheDB) : CacheDB :=
  (db.filter fun e => e.fingerprint != fp) ++ [⟨fp, summary, now⟩]

/-- Model of `cache.prune_old_cache` (cache.py lines 69-82):
`DELETE FROM message_cache WHERE timestamp < cutoff` with
`cutoff = int(time.time()) - days*24*60*60`.  The row count is only
logged; the Python function has no `return` statement, so its value is
`None`, modelled as the second component below. -/
def prune_old_cache (days : Nat) (now : Int) (db : CacheDB) : CacheDB × Option Nat :=
  let cutoff : Int := now - (days : Int) * 24 * 60 * 60
  let kept := db.filter fun e => !(decide (e.timestamp < cutoff))
  (kept, none)

/-! ## Summarizer (`ollama_integration.py`) -/

/-- The external summarization service: given the index of the
invocation (so a test double may answer differently each time) and the
prompt, either an answer or a raised exception. -/
abbrev Oracle := Nat → PyStr → Except Unit PyStr

/-- An external service that always returns an answer. -/
def okOracle (f : Nat → PyStr → PyStr) : Oracle := fun k p => .ok (f k p)

/-- Summarizer state threaded through `_sync_summarize`: the cache
table plus the number of `ollama.chat` invocations so far. -/
structure SumState where
  db : CacheDB
  calls : Nat

/-- The prompt `f"EMAIL TO SUMMARIZE:\n\nFrom: {sender}\nSubject:
{subject}\n\n{body}"` built in `_sync_summarize` (the body passed here
is already truncated to 3000 characters by the caller site). -/
def promptFor (sender subject bodyTrunc : PyStr) : PyStr :=
  pystr "EMAIL TO SUMMARIZE:\n\nFrom: " ++ sender ++
  pystr "\nSubject: " ++ subject ++ pystr "\n\n" ++ bodyTrunc

/-- The fallback returned when the service raises
(ollama_integration.py lines 47-50). -/
def fallbackSummary (sender subject body : PyStr) : PyStr :=
  pystr "📧 New Email\nFrom: " ++ sender ++ pystr "\nSubject: " ++ subject ++
  pystr "\n\n" ++ body.take 500 ++ pystr "..."

/-- Model of `cached = cache.get_cached_summary(fp); if cached: ...` — Python
truthiness treats both `None` and the empty string as false, so an
empty cached summary behaves as a miss. -/
def truthyGet (fp : PyStr) (db : CacheDB) : Option PyStr :=
  match get_cached_summary fp db with
  | some c => if c.isEmpty then none else some c
  | none => none

/-- Model of `ollama_integration._sync_summarize` (lines 13-50): fingerprint the
untruncated body, return a truthy cached summary verbatim, otherwise
invoke the service on the prompt built from `body[:3000]`, strip
whitespace from the answer, cache it, and return it; if the service
raises, return the fallback (nothing is cached). -/
def _sync_summarize (oracle : Oracle) (now : Int) (body subject sender : PyStr)
    (st : SumState) : PyStr × SumState :=
  let fingerprint := generate_fingerprint sender subject body
  match truthyGet fingerprint st.db with
  | some cached => (cached, st)
  | none =>
    match oracle st.calls (promptFor sender subject (body.take 3000)) with
    | .ok content =>
      let summary := pyStrip content
      (summary, ⟨set_cached_summary fingerprint summary now st.db, st.calls + 1⟩)
    | .error _ => (fallbackSummary sender subject body, ⟨st.db, st.calls + 1⟩)

/-! ## Supporting lemmas -/

theorem hexOfBytes_length (l : List Nat) : (hexOfBytes l).length = 2 * l.length := by
  induction l with
  | nil => rfl
  | cons b bs ih => simp [hexOfBytes, byteHex] at ih ⊢; omega

theorem sha256Bytes_length (msg : List Nat) : (sha256Bytes msg).length = 32 := by
  simp [sha256Bytes, wordBytes]

theorem generate_fingerprint_length (s p b : PyStr) :
    (generate_fingerprint s p b).length = 64 := by
  simp [generate_fingerprint, hexOfBytes_length, sha256Bytes_length]

theorem get_set_same (fp s : PyStr) (now : Int) (db : CacheDB) :
    get_cached_summary fp (set_cached_summary fp s now db) = some s := by
  induction db with
  | nil => simp [get_cached_summary, set_cached_summary]
  | cons e es ih =>
    by_cases h : e.fingerprint = fp
    · simpa [get_cached_summary, set_cached_summary, h] using ih
    · simpa [get_cached_summary, set_cached_summary, h] using ih

theorem truthyGet_set_same (fp s : PyStr) (now : Int) (db : CacheDB) (hs : s ≠ []) :
    truthyGet fp (set_cached_summary fp s now db) = some s := by
  simp [truthyGet, get_set_same, hs]

/-! ## Claim C4 -/

/-- C4 (amended): the fingerprint is pure and deterministic — repeated
calls on the same triple agree — and it depends only on the joined
string `sender|subject|body`, so distinct triples whose joins coincide
collide with certainty; every fingerprint is a 64-character digest. -/
theorem C4_fingerprint_deterministic :
    (∀ s p b : PyStr, generate_fingerprint s p b = generate_fingerprint s p b) ∧
    (∀ s₁ p₁ b₁ s₂ p₂ b₂ : PyStr,
      fingerprintData s₁ p₁ b₁ = fingerprintData s₂ p₂ b₂ →
      generate_fingerprint s₁ p₁ b₁ = generate_fingerprint s₂ p₂ b₂) ∧
    (∀ s p b : PyStr, (generate_fingerprint s p b).length = 64) := by
  refine ⟨fun _ _ _ => rfl, fun s₁ p₁ b₁ s₂ p₂ b₂ h => ?_, generate_fingerprint_length⟩
  unfold generate_fingerprint
  rw [h]

/-- Witness for C4: the amended theorem applied at two concrete triples
whose joined strings coincide. -/
theorem C4_fingerprint_deterministic_witness :
    generate_fingerprint (pystr "a|b") (pystr "c") (pystr "d") =
      generate_fingerprint (pystr "a") (pystr "b|c") (pystr "d") :=
  C4_fingerprint_deterministic.2.1 _ _ _ _ _ _ (by decide)

/-- C4 counterexample: two differing triples with equal fingerprints —
the unescaped `|` separator makes the encoding non-injective, so the
collision happens with certainty, not merely with negligible
probability. -/
theorem C4_fingerprint_counterexample :
    generate_fingerprint (pystr "a|b") (pystr "c") (pystr "d") =
      generate_fingerprint (pystr "a") (pystr "b|c") (pystr "d") ∧
    (pystr "a|b", pystr "c", pystr "d") ≠ (pystr "a", pystr "b|c", pystr "d") := by
  constructor
  · have h : fingerprintData (pystr "a|b") (pystr "c") (pystr "d") =
        fingerprintData (pystr "a") (pystr "b|c") (pystr "d") := by decide
    unfold generate_fingerprint
    rw [h]
  · decide

/-! ## Claim C1 -/

/-- C1 (amended): provided every answer of the external service is
non-empty after whitespace stripping, calling `_sync_summarize` twice
with identical inputs invokes the service at most once in total, and
the second call returns exactly the first call's result even though the
service would answer differently on a second invocation. -/
theorem C1_summarize_idempotent (f : Nat → PyStr → PyStr)
    (hne : ∀ k p, pyStrip (f k p) ≠ [])
    (body subject sender : PyStr) (now₁ now₂ : Int) (st₀ : SumState) :
    (_sync_summarize (okOracle f) now₂ body subject sender
        (_sync_summarize (okOracle f) now₁ body subject sender st₀).2).2.calls
      ≤ st₀.calls + 1 ∧
    (_sync_summarize (okOracle f) now₂ body subject sender
        (_sync_summarize (okOracle f) now₁ body subject sender st₀).2).1 =
      (_sync_summarize (okOracle f) now₁ body subject sender st₀).1 := by
  cases h : truthyGet (generate_fingerprint sender subject body) st₀.db with
  | some c => simp [_sync_summarize, h]
  | none =>
    have hs := hne st₀.calls (promptFor sender subject (body.take 3000))
    simp [_sync_summarize, h, okOracle, truthyGet_set_same _ _ now₁ st₀.db hs]

/-- A test double answering "A" on the first invocation and "B" later. -/
def c1Responder : Nat → PyStr → PyStr := fun k _ => if k = 0 then pystr "A" else pystr "B"

/-- Witness for C1: the amended theorem at a concrete triple, empty
cache, and the test double above. -/
theorem C1_summarize_idempotent_witness :
    (_sync_summarize (okOracle c1Responder) 1 (pystr "b") (pystr "s") (pystr "e")
        (_sync_summarize (okOracle c1Responder) 0 (pystr "b") (pystr "s") (pystr "e")
          ⟨[], 0⟩).2).2.calls ≤ 0 + 1 ∧
    (_sync_summarize (okOracle c1Responder) 1 (pystr "b") (pystr "s") (pystr "e")
        (_sync_summarize (okOracle c1Responder) 0 (pystr "b") (pystr "s") (pystr "e")
          ⟨[], 0⟩).2).1 =
      (_sync_summarize (okOracle c1Responder) 0 (pystr "b") (pystr "s") (pystr "e")
        ⟨[], 0⟩).1 :=
  C1_summarize_idempotent c1Responder
    (by intro k p; unfold c1Responder; split <;> decide)
    (pystr "b") (pystr "s") (pystr "e") 0 1 ⟨[], 0⟩

/-- A service answering the empty string first and "X" afterwards. -/
def c1EmptyThenX : Oracle := fun k _ => .ok (if k = 0 then [] else pystr "X")

/-- C1 counterexample: if the service's first answer strips to the
empty string, the empty cached summary is falsy in Python, so the
second identical call misses the cache, invokes the service a second
time (two invocations in total) and returns a different result. -/
theorem C1_summarize_counterexample :
    (_sync_summarize c1EmptyThenX 1 (pystr "b") (pystr "s") (pystr "e")
        (_sync_summarize c1EmptyThenX 0 (pystr "b") (pystr "s") (pystr "e")
          ⟨[], 0⟩).2).2.calls = 2 ∧
    (_sync_summarize c1EmptyThenX 1 (pystr "b") (pystr "s") (pystr "e")
        (_sync_summarize c1EmptyThenX 0 (pystr "b") (pystr "s") (pystr "e")
          ⟨[], 0⟩).2).1 ≠
      (_sync_summarize c1EmptyThenX 0 (pystr "b") (pystr "s") (pystr "e")
        ⟨[], 0⟩).1 := by
  constructor
  · simp [_sync_summarize, truthyGet, get_cached_summary, set_cached_summary,
      c1EmptyThenX, pyStrip]
  · simp [_sync_summarize, truthyGet, get_cached_summary, set_cached_summary,
      c1EmptyThenX, pyStrip]
    decide

/-! ## Claim C5 -/

/-- C5 (confirmed): on a cache miss, if the external service raises,
`_sync_summarize` returns the deterministic fallback composed from the
subject, sender and the 500-character body prefix; the error is not
propagated to the caller and the cache is left unchanged. -/
theorem C5_fallback (oracle : Oracle) (body subject sender : PyStr) (now : Int)
    (st : SumState)
    (hmiss : truthyGet (generate_fingerprint sender subject body) st.db = none)
    (e : Unit)
    (herr : oracle st.calls (promptFor sender subject (body.take 3000)) = .error e) :
    _sync_summarize oracle now body subject sender st =
      (fallbackSummary sender subject body, ⟨st.db, st.calls + 1⟩) := by
  simp [_sync_summarize, hmiss, herr]

/-- A service that always raises. -/
def failingOracle : Oracle := fun _ _ => .error ()

/-- Witness for C5: the theorem at a concrete input with an empty cache
and the always-raising service. -/
theorem C5_fallback_witness :
    _sync_summarize failingOracle 0 (pystr "b") (pystr "s") (pystr "e") ⟨[], 0⟩ =
      (fallbackSummary (pystr "e") (pystr "s") (pystr "b"), ⟨[], 1⟩) :=
  C5_fallback failingOracle (pystr "b") (pystr "s") (pystr "e") 0 ⟨[], 0⟩ rfl () rfl

/-! ## Claim C6 -/

/-- C6 (amended): on a cache miss with a successful response, the
summarizer strips only leading and trailing whitespace from the
response — no reasoning-marker removal takes place — stores that
cleaned result in the cache keyed by the fingerprint computed over the
untruncated body (while the service sees only `body[:3000]`), and
returns it. -/
theorem C6_store_stripped (oracle : Oracle) (body subject sender : PyStr) (now : Int)
    (st : SumState) (r : PyStr)
    (hmiss : truthyGet (generate_fingerprint sender subject body) st.db = none)
    (hok : oracle st.calls (promptFor sender subject (body.take 3000)) = .ok r) :
    _sync_summarize oracle now body subject sender st =
      (pyStrip r,
       ⟨set_cached_summary (generate_fingerprint sender subject body) (pyStrip r) now st.db,
        st.calls + 1⟩) := by
  simp [_sync_summarize, hmiss, hok]

/-- A service whose answer carries reasoning markup. -/
def c6ThinkOracle : Oracle := fun _ _ => .ok (pystr "<think>hi</think>Sum")

/-- Witness for C6: the amended theorem at a concrete input. -/
theorem C6_store_stripped_witness :
    _sync_summarize c6ThinkOracle 0 (pystr "b") (pystr "s") (pystr "e") ⟨[], 0⟩ =
      (pyStrip (pystr "<think>hi</think>Sum"),
       ⟨set_cached_summary (generate_fingerprint (pystr "e") (pystr "s") (pystr "b"))
          (pyStrip (pystr "<think>hi</think>Sum")) 0 [], 1⟩) :=
  C6_store_stripped c6ThinkOracle (pystr "b") (pystr "s") (pystr "e") 0 ⟨[], 0⟩
    (pystr "<think>hi</think>Sum") rfl rfl

/-- C6 counterexample: the reasoning markers survive — the summarizer
returns the response with `<think>...</think>` intact, refuting that
marker-delimited text is removed before the result is returned. -/
theorem C6_counterexample :
    (_sync_summarize c6ThinkOracle 0 (pystr "b") (pystr "s") (pystr "e") ⟨[], 0⟩).1 =
      pystr "<think>hi</think>Sum" ∧
    pyIn (pystr "<think>")
        ((_sync_summarize c6ThinkOracle 0 (pystr "b") (pystr "s") (pystr "e") ⟨[], 0⟩).1)
      = true := by
  constructor
  · simp [_sync_summarize, truthyGet, get_cached_summary, c6ThinkOracle]
    decide
  · simp [_sync_summarize, truthyGet, get_cached_summary, c6ThinkOracle]
    decide

/-! ## Claim C9 -/

/-- C9 (amended): pruning deletes exactly the cache entries whose
creation time is strictly older than the horizon and retains all newer
entries — concretely a 400-day-old entry is removed by a 365-day prune
while a 10-day-old entry is retained — but the function returns `None`;
the deleted count is only logged, never returned. -/
theorem C9_prune :
    (∀ (days : Nat) (now : Int) (db : CacheDB) (e : CacheEntry),
      e ∈ (prune_old_cache days now db).1 ↔
        e ∈ db ∧ ¬(e.timestamp < now - (days : Int) * 24 * 60 * 60)) ∧
    (∀ (days : Nat) (now : Int) (db : CacheDB), (prune_old_cache days now db).2 = none) ∧
    (prune_old_cache 365 34560000
        [⟨pystr "old", pystr "s1", 0⟩, ⟨pystr "new", pystr "s2", 33696000⟩]).1 =
      [⟨pystr "new", pystr "s2", 33696000⟩] := by
  refine ⟨fun days now db e => ?_, fun _ _ _ => rfl, by decide⟩
  simp [prune_old_cache, List.mem_filter]

/-- C9 counterexample: pruning a table holding one 400-day-old entry
deletes that entry (count 1) yet the function's value is `None`, not
the count of deleted entries. -/
theorem C9_counterexample :
    (prune_old_cache 365 34560000 [⟨pystr "f", pystr "s", 0⟩]).1 = [] ∧
    (prune_old_cache 365 34560000 [⟨pystr "f", pystr "s", 0⟩]).2 = none ∧
    (prune_old_cache 365 34560000 [⟨pystr "f", pystr "s", 0⟩]).2 ≠ some 1 := by
  refine ⟨by decide, rfl, by decide⟩

/-! ## Mailbox client (`gmail_api.py`): HTML handling -/

/-- The two quote characters accepted by the anchor pattern. -/
def isQuote (c : Char) : Bool := c = '"' || c = Char.ofNat 39

/-- Case-insensitive match of a lowercase literal pattern; returns the
remaining input on success. -/
def matchCI : PyStr → PyStr → Option PyStr
  | [], rest => some rest
  | _, [] => none
  | p :: ps, c :: cs => if c.toLower = p then matchCI ps cs else none

/-- Match the href attribute pattern tail at the head of the input:
the literal href= (case-insensitively), an opening quote of either
kind, a non-empty capture free of both quote kinds, and a closing
quote of either kind.  Returns the capture and the remaining input. -/
def matchHrefTail (cs : PyStr) : Option (PyStr × PyStr) :=
  match matchCI (pystr "href=") cs with
  | none => none
  | some rest =>
    match rest with
    | [] => none
    | q :: rest2 =>
      if isQuote q then
        let cap := rest2.takeWhile fun c => !isQuote c
        let rest3 := rest2.drop cap.length
        match rest3 with
        | [] => none
        | _ :: rest4 => if cap.isEmpty then none else some (cap, rest4)
      else none

/-- Backtracking for the greedy `[^>]+` gap between `<a` and `href=`:
try the longest gap first, shrinking while the tail fails, exactly as
the regex engine does. -/
def tryGap : Nat → PyStr → Option (PyStr × PyStr)
  | 0, _ => none
  | m + 1, cs =>
    match matchHrefTail (cs.drop (m + 1)) with
    | some r => some r
    | none => tryGap m cs

/-- Attempt the whole anchor pattern (IGNORECASE): an opening angle
bracket and the letter a, a non-empty gap free of closing angle
brackets, then the href attribute tail. -/
def tryAnchor : PyStr → Option (PyStr × PyStr)
  | c1 :: c2 :: rest =>
    if c1 = '<' && (c2 = 'a' || c2 = 'A') then
      tryGap (rest.takeWhile fun c => c ≠ '>').length rest
    else none
  | _ => none

/-- Model of `re.findall` of the anchor pattern: non-overlapping leftmost
matches, scanning resumes after each match.  Fueled; each step consumes
at least one character. -/
def findAnchorsAux : Nat → PyStr → List PyStr
  | 0, _ => []
  | _ + 1, [] => []
  | fuel + 1, c :: cs =>
    match tryAnchor (c :: cs) with
    | some (link, rest) => link :: findAnchorsAux fuel rest
    | none => findAnchorsAux fuel cs

def findAnchors (s : PyStr) : List PyStr := findAnchorsAux s.length s

/-- Model of the tag-blanking substitution: each shortest run from `<` to the
next `>` with no newline in between is replaced by one space; a `<`
with no such closing `>` is kept verbatim (`.` does not match a
newline). -/
def stripTagsAux : Nat → PyStr → PyStr
  | 0, s => s
  | _ + 1, [] => []
  | fuel + 1, c :: cs =>
    if c = '<' then
      let inside := cs.takeWhile fun d => d ≠ '>' && d ≠ '\n'
      match cs.drop inside.length with
      | '>' :: rest2 => ' ' :: stripTagsAux fuel rest2
      | _ => c :: stripTagsAux fuel cs
    else c :: stripTagsAux fuel cs

def stripTagsOnly (s : PyStr) : PyStr := stripTagsAux s.length s

/-- The blocklist of tracking/unsubscribe substrings
(gmail_api.py lines 74-75). -/
def blocklist : List PyStr :=
  [pystr "unsubscribe", pystr "mailto:", pystr "tel:", pystr "track",
   pystr "click", pystr "open.", pystr "list-"]

/-- A link is discarded when its lowercased form contains any blocklist
substring. -/
def isBadLink (l : PyStr) : Bool := blocklist.any fun x => pyIn x (pyLower l)

/-- Model of `list(dict.fromkeys(...))`: de-duplicate keeping first occurrences
in first-seen order. -/
def pyDedupAux : List PyStr → List PyStr → List PyStr
  | _, [] => []
  | seen, x :: xs =>
    if x ∈ seen then pyDedupAux seen xs else x :: pyDedupAux (x :: seen) xs

def pyDedup (l : List PyStr) : List PyStr := pyDedupAux [] l

/-- The surviving link list appended by `strip_html_tags`: collected
anchors, blocklist-filtered, de-duplicated, first three. -/
def goodLinksOf (text : PyStr) : List PyStr :=
  (pyDedup ((findAnchors text).filter fun l => !isBadLink l)).take 3

/-- Model of `gmail_api.strip_html_tags` (lines 60-80): extract anchor targets,
blank out markup, and append the surviving unique targets as a labeled
block after two newlines when any remain. -/
def strip_html_tags (text : PyStr) : PyStr :=
  let links := findAnchors text
  let clean := stripTagsOnly text
  if links.isEmpty then clean
  else
    let unique_links := goodLinksOf text
    if unique_links.isEmpty then clean
    else clean ++ pystr "\n\nLinks:\n" ++ pyJoin (pystr "\n") unique_links

/-- Model of `gmail_api.remove_double_whitespace` (lines 88-90):
`' '.join(text.split())`. -/
def remove_double_whitespace (text : PyStr) : PyStr :=
  pyJoin (pystr " ") (pySplit text)

/-! ## Base64url and UTF-8 decoding (`base64.urlsafe_b64decode(data).decode()`) -/

/-- Value of one character of the urlsafe base64 alphabet. -/
def b64Val (c : Char) : Option Nat :=
  let n := c.toNat
  if 65 ≤ n && n ≤ 90 then some (n - 65)
  else if 97 ≤ n && n ≤ 122 then some (n - 71)
  else if 48 ≤ n && n ≤ 57 then some (n + 4)
  else if n = 45 then some 62
  else if n = 95 then some 63
  else none

/-- Decode full and final (padded) quads of six-bit values to bytes. -/
def b64Quads : List Nat → List Nat
  | a :: b :: c :: d :: rest =>
    (a * 4 + b / 16) :: ((b % 16) * 16 + c / 4) :: ((c % 4) * 64 + d) :: b64Quads rest
  | [a, b] => [a * 4 + b / 16]
  | [a, b, c] => [a * 4 + b / 16, (b % 16) * 16 + c / 4]
  | _ => []

/-- Model of `base64.urlsafe_b64decode`: characters outside the alphabet are
discarded, the length must then be a multiple of four, and trailing `=`
padding shortens the final quad. -/
def b64UrlDecode (s : PyStr) : Option (List Nat) :=
  let kept := s.filter fun c => (b64Val c).isSome || c = '='
  if kept.length % 4 ≠ 0 then none
  else
    let core := kept.takeWhile fun c => c ≠ '='
    if core.length % 4 = 1 then none
    else some (b64Quads (core.filterMap b64Val))

/-- Strict UTF-8 decoding (`bytes.decode()`); `none` models the raised
`UnicodeDecodeError`. -/
def utf8DecodeAux : Nat → List Nat → Option PyStr
  | 0, [] => some []
  | 0, _ => none
  | _ + 1, [] => some []
  | fuel + 1, b :: bs =>
    if b < 128 then (utf8DecodeAux fuel bs).map fun r => Char.ofNat b :: r
    else if b < 194 then none
    else if b < 224 then
      match bs with
      | c1 :: rest =>
        if 128 ≤ c1 && c1 < 192 then
          (utf8DecodeAux fuel rest).map fun r => Char.ofNat ((b - 192) * 64 + (c1 - 128)) :: r
        else none
      | [] => none
    else if b < 240 then
      match bs with
      | c1 :: c2 :: rest =>
        if 128 ≤ c1 && c1 < 192 && 128 ≤ c2 && c2 < 192 then
          let n := (b - 224) * 4096 + (c1 - 128) * 64 + (c2 - 128)
          if n < 2048 || (55296 ≤ n && n < 57344) then none
          else (utf8DecodeAux fuel rest).map fun r => Char.ofNat n :: r
        else none
      | _ => none
    else if b < 245 then
      match bs with
      | c1 :: c2 :: c3 :: rest =>
        if 128 ≤ c1 && c1 < 192 && 128 ≤ c2 && c2 < 192 && 128 ≤ c3 && c3 < 192 then
          let n := (b - 240) * 262144 + (c1 - 128) * 4096 + (c2 - 128) * 64 + (c3 - 128)
          if n < 65536 || n > 1114111 then none
          else (utf8DecodeAux fuel rest).map fun r => Char.ofNat n :: r
        else none
      | _ => none
    else none

def utf8Decode (bs : List Nat) : Option PyStr := utf8DecodeAux bs.length bs

/-- Raised Python exceptions relevant to the modelled paths. -/
inductive PyErr where
  | typeError
  | valueError
deriving DecidableEq

/-- Model of `base64.urlsafe_b64decode(data).decode()`; a failure of either step
is a raised exception. -/
def decodeData (d : PyStr) : Except PyErr PyStr :=
  match b64UrlDecode d with
  | none => .error .valueError
  | some bs =>
    match utf8Decode bs with
    | none => .error .valueError
    | some t => .ok t

/-! ## `gmail_api.get_email_body` (lines 92-128) -/

/-- A Gmail message payload: mime type, the optional base64url body
data field, and the optional nested parts list; an Option distinguishes
an absent parts key from an empty list. -/
inductive Payload where
  | node : PyStr → Option PyStr → Option (List Payload) → Payload

def Payload.mimeType : Payload → PyStr
  | .node m _ _ => m

def Payload.bodyData : Payload → Option PyStr
  | .node _ d _ => d

def Payload.parts : Payload → Option (List Payload)
  | .node _ _ p => p

/-- The sentinel body returned when no readable part is found. -/
def noReadable : PyStr := pystr "(No readable content found)"

/-- Step 1 of `get_email_body`: the first `text/plain` part with truthy
data whose decoded text is truthy and not the literal `"null"`
(case-insensitively, after stripping) is returned whitespace-collapsed;
parts failing any test are skipped. -/
def findPlain : List Payload → Except PyErr (Option PyStr)
  | [] => .ok none
  | p :: ps =>
    if p.mimeType = pystr "text/plain" then
      match p.bodyData with
      | some d =>
        if d.isEmpty then findPlain ps
        else
          match decodeData d with
          | .error e => .error e
          | .ok text =>
            if !text.isEmpty && pyLower (pyStrip text) ≠ pystr "null" then
              .ok (some (remove_double_whitespace text))
            else findPlain ps
      | none => findPlain ps
    else findPlain ps

/-- Step 2 of `get_email_body`: the first `text/html` part with truthy
data is returned tag-stripped and whitespace-collapsed, with no
emptiness or `"null"` test. -/
def findHtml : List Payload → Except PyErr (Option PyStr)
  | [] => .ok none
  | p :: ps =>
    if p.mimeType = pystr "text/html" then
      match p.bodyData with
      | some d =>
        if d.isEmpty then findHtml ps
        else
          match decodeData d with
          | .error e => .error e
          | .ok html => .ok (some (remove_double_whitespace (strip_html_tags html)))
      | none => findHtml ps
    else findHtml ps

mutual

/-- Model of `gmail_api.get_email_body`: prefer a readable `text/plain` part,
else a stripped `text/html` part, else recurse into parts that
themselves have `parts`, else the sentinel; a non-multipart payload
returns its decoded data (tag-stripped when `text/html`) or the
sentinel. -/
def get_email_body (p : Payload) : Except PyErr PyStr :=
  match p with
  | .node _ _ (some parts) =>
    match findPlain parts with
    | .error e => .error e
    | .ok (some r) => .ok r
    | .ok none =>
      match findHtml parts with
      | .error e => .error e
      | .ok (some r) => .ok r
      | .ok none =>
        match nestedSearch parts with
        | .error e => .error e
        | .ok (some r) => .ok r
        | .ok none => .ok noReadable
  | .node mt d none =>
    match d with
    | some data =>
      if data.isEmpty then .ok noReadable
      else
        match decodeData data with
        | .error e => .error e
        | .ok content =>
          if mt = pystr "text/html" then
            .ok (remove_double_whitespace (strip_html_tags content))
          else .ok (remove_double_whitespace content)
    | none => .ok noReadable

/-- Step 3 of `get_email_body`: recurse into each part that has a
`parts` key; the first recursive result that is truthy and not `"null"`
is returned — note the sentinel itself passes this test. -/
def nestedSearch (l : List Payload) : Except PyErr (Option PyStr) :=
  match l with
  | [] => .ok none
  | q :: qs =>
    match q.parts with
    | some _ =>
      match get_email_body q with
      | .error e => .error e
      | .ok res =>
        if !res.isEmpty && pyLower (pyStrip res) ≠ pystr "null" then .ok (some res)
        else nestedSearch qs
    | none => nestedSearch qs

end

/-! ## Seen-set store (`history.py`) -/

/-- On-disk seen sets, keyed by chat id only — `history.py` stores
`histories/{chat_id}.json` and its functions take no account label. -/
abbrev HistStore := List (PyStr × List PyStr)

/-- Model of `history.load_history(chat_id)` (lines 12-25): the stored list, or
the empty list when missing. -/
def load_history (store : HistStore) (chat : PyStr) : List PyStr :=
  match store.find? fun e => e.1 == chat with
  | some e => e.2
  | none => []

/-- Model of `history.save_history(chat_id, history)` (lines 27-33). -/
def save_history (store : HistStore) (chat : PyStr) (hist : List PyStr) : HistStore :=
  (store.filter fun e => e.1 != chat) ++ [(chat, hist)]

/-- Parameter list of `def load_history(chat_id)` in history.py. -/
def load_history_params : List PyStr := [pystr "chat_id"]

/-- Parameter list of `def save_history(chat_id, history)` in history.py. -/
def save_history_params : List PyStr := [pystr "chat_id", pystr "history"]

/-- Python call binding: `npos` positional arguments fill the leading
parameters and every keyword must name one of the remaining parameters;
otherwise the call raises `TypeError`. -/
def pyCallOk (params : List PyStr) (npos : Nat) (kwargs : List PyStr) : Bool :=
  decide (npos ≤ params.length) && kwargs.all fun k => (params.drop npos).contains k

/-! ## Polling orchestrator (`jobs.py`) -/

/-- Truncation before delivery (jobs.py lines 101-103): text longer
than 4000 characters becomes its 4000-character prefix plus the
three-character marker `"..."`. -/
def truncateForTelegram (summary : PyStr) : PyStr :=
  if summary.length > 4000 then summary.take 4000 ++ pystr "..." else summary

/-- A full message as returned by `messages().get`. -/
structure MsgDetail where
  headers : List (PyStr × PyStr)
  payload : Payload

/-- A connected mailbox: the ids `list_messages` returns for the
account's watermark query, and the detail fetch (`none` models a
raised provider error for that id). -/
structure GmailService where
  msgs : List PyStr
  detail : PyStr → Option MsgDetail

/-- Credential situations distinguished by `get_gmail_service`
(gmail_api.py lines 18-49). -/
inductive CredState where
  | missing
  | valid
  | expiredRefreshOk
  | expiredRefreshFail
  | invalidNoRefresh

/-- Model of `gmail_api.get_gmail_service`: a usable client for valid or
successfully refreshed credentials, `None` for a missing file, a failed
refresh, or invalid credentials without a refresh token. -/
def get_gmail_service (cred : CredState) (svc : GmailService) : Option GmailService :=
  match cred with
  | .missing => none
  | .valid => some svc
  | .expiredRefreshOk => some svc
  | .expiredRefreshFail => none
  | .invalidNoRefresh => none

/-- The fixed environment of one polling cycle: per-account credential
state and mailbox, per-account descriptor from the meta file, the
summarization service, and the wall clock. -/
structure BotEnv where
  creds : PyStr × Option PyStr → CredState
  gmail : PyStr × Option PyStr → GmailService
  descriptor : PyStr × Option PyStr → PyStr
  oracle : Oracle
  now : Int

/-- Mutable state threaded through one polling cycle: summarizer cache
state, the on-disk seen sets, and the delivered `(chat_id, text)`
payloads in send order. -/
structure CycleState where
  sum : SumState
  hist : HistStore
  sent : List (PyStr × PyStr)

/-- Header lookup with default, jobs.py lines 83-84. -/
def headerValue (hs : List (PyStr × PyStr)) (name dflt : PyStr) : PyStr :=
  match hs.find? fun h => h.1 == name with
  | some h => h.2
  | none => dflt

/-- The body of the per-message `try` block (jobs.py lines 77-119):
fetch detail, read subject and sender, prefix both with the descriptor
(or raw label) for a multi-account user, extract the body, summarize,
truncate, and send.  An error result models the raised exception at the
point it occurs, with the side effects so far retained. -/
def processMessage (env : BotEnv) (chat : PyStr) (email : Option PyStr)
    (svc : GmailService) (descriptor mid : PyStr) (cs : CycleState) :
    Except PyErr Unit × CycleState :=
  match svc.detail mid with
  | none => (.error .valueError, cs)
  | some det =>
    let subject0 := headerValue det.headers (pystr "Subject") (pystr "No Subject")
    let sender := headerValue det.headers (pystr "From") (pystr "Unknown Sender")
    let subject :=
      match email with
      | some e =>
        pystr "[" ++ (if descriptor.isEmpty then e else descriptor) ++ pystr "] " ++ subject0
      | none => subject0
    match get_email_body det.payload with
    | .error e => (.error e, cs)
    | .ok body =>
      let res := _sync_summarize env.oracle env.now body subject sender cs.sum
      let summary :=
        match email with
        | some e =>
          pystr "[" ++ (if descriptor.isEmpty then e else descriptor) ++ pystr "]\n" ++ res.1
        | none => res.1
      let text := truncateForTelegram summary
      (.ok (), { cs with sum := res.2, sent := cs.sent ++ [(chat, text)] })

/-- The `for msg in messages` loop (jobs.py lines 75-128): ids already
in the seen set are skipped; a processed id is appended to the
in-memory history whether or not its `try` block succeeded (a failure
is logged and the id still recorded to avoid an infinite retry loop). -/
def batchLoop (env : BotEnv) (chat : PyStr) (email : Option PyStr)
    (svc : GmailService) (descriptor : PyStr) :
    List PyStr → List PyStr → Bool → CycleState → List PyStr × Bool × CycleState
  | [], history, new_ids, cs => (history, new_ids, cs)
  | mid :: rest, history, new_ids, cs =>
    if mid ∈ history then batchLoop env chat email svc descriptor rest history new_ids cs
    else
      let step := processMessage env chat email svc descriptor mid cs
      batchLoop env chat email svc descriptor rest (history ++ [mid]) true step.2

/-- Batch tail of `process_user_account` (jobs.py lines 75-134): run the
message loop, and if any id was recorded, trim the history to the last
20 and persist it once — but the call
`save_history(chat_id, history, email=email)` passes a keyword that
`history.save_history(chat_id, history)` does not accept, raising
`TypeError`. -/
def accountBatch (env : BotEnv) (chat : PyStr) (email : Option PyStr)
    (svc : GmailService) (history0 : List PyStr) (cs : CycleState) :
    CycleState × Option PyErr :=
  let descriptor := env.descriptor (chat, email)
  let loopRes := batchLoop env chat email svc descriptor svc.msgs history0 false cs
  let history := loopRes.1
  let cs2 := loopRes.2.2
  if loopRes.2.1 then
    let history2 := if history.length > 20 then history.drop (history.length - 20) else history
    if pyCallOk save_history_params 2 [pystr "email"] then
      ({ cs2 with hist := save_history cs2.hist chat history2 }, none)
    else (cs2, some .typeError)
  else (cs2, none)

/-- Model of `jobs.process_user_account` (lines 45-134): a missing or
unrefreshable credential yields no service and the account is skipped
silently; with a service, the call
`load_history(chat_id, email=email)` passes a keyword that
`history.load_history(chat_id)` does not accept, raising `TypeError`
before any message is processed. -/
def process_user_account (env : BotEnv) (chat : PyStr) (email : Option PyStr)
    (cs : CycleState) : CycleState × Option PyErr :=
  match get_gmail_service (env.creds (chat, email)) (env.gmail (chat, email)) with
  | none => (cs, none)
  | some svc =>
    if pyCallOk load_history_params 1 [pystr "email"] then
      accountBatch env chat email svc (load_history cs.hist chat) cs
    else (cs, some .typeError)

/-- One polling cycle over the enumerated accounts (`jobs.poll_emails`,
lines 20-43): accounts are processed sequentially and nothing catches
an exception escaping `process_user_account`, so the first one aborts
the rest of the cycle. -/
def pollCycle (env : BotEnv) : List (PyStr × Option PyStr) → CycleState → CycleState × Option PyErr
  | [], cs => (cs, none)
  | acct :: rest, cs =>
    match process_user_account env acct.1 acct.2 cs with
    | (cs2, none) => pollCycle env rest cs2
    | (cs2, some e) => (cs2, some e)

/-! ## Lemmas about de-duplication -/

theorem pyDedupAux_sublist (l : List PyStr) : ∀ seen, (pyDedupAux seen l).Sublist l := by
  induction l with
  | nil => intro seen; simp [pyDedupAux]
  | cons x xs ih =>
    intro seen
    by_cases h : x ∈ seen
    · simp only [pyDedupAux, if_pos h]
      exact (ih seen).cons x
    · simp only [pyDedupAux, if_neg h]
      exact (ih (x :: seen)).cons₂ x

theorem pyDedupAux_nodup (l : List PyStr) :
    ∀ seen, (pyDedupAux seen l).Nodup ∧ ∀ x ∈ pyDedupAux seen l, x ∉ seen := by
  induction l with
  | nil => intro seen; simp [pyDedupAux]
  | cons x xs ih =>
    intro seen
    by_cases h : x ∈ seen
    · simp only [pyDedupAux, if_pos h]
      exact ih seen
    · simp only [pyDedupAux, if_neg h]
      obtain ⟨hn, hs⟩ := ih (x :: seen)
      refine ⟨List.nodup_cons.mpr ⟨fun hx => ?_, hn⟩, ?_⟩
      · exact (hs x hx) (List.mem_cons_self x seen)
      · intro y hy
        rcases List.mem_cons.mp hy with rfl | hy2
        · exact h
        · intro hysen
          exact (hs y hy2) (List.mem_cons.mpr (Or.inr hysen))

theorem pyDedup_sublist (l : List PyStr) : (pyDedup l).Sublist l :=
  pyDedupAux_sublist l []

theorem pyDedup_nodup (l : List PyStr) : (pyDedup l).Nodup :=
  (pyDedupAux_nodup l []).1

theorem goodLinksOf_sublist (text : PyStr) :
    (goodLinksOf text).Sublist (findAnchors text) :=
  ((List.take_sublist 3 _).trans (pyDedup_sublist _)).trans (List.filter_sublist _)

theorem goodLinksOf_empty_of_no_anchors (text : PyStr) (h : findAnchors text = []) :
    goodLinksOf text = [] := by
  simp [goodLinksOf, h, pyDedup, pyDedupAux]

/-! ## Claim C7 -/

/-- The example body from the specification. -/
def c7ExampleHtml : PyStr :=
  pystr "<p>Hi</p><a href=\"http://x/unsubscribe\">no</a><a href=\"http://good/1\">yes</a>"

/-- The example body as base64url message data. -/
def c7Data : PyStr :=
  pystr "PHA-SGk8L3A-PGEgaHJlZj0iaHR0cDovL3gvdW5zdWJzY3JpYmUiPm5vPC9hPjxhIGhyZWY9Imh0dHA6Ly9nb29kLzEiPnllczwvYT4="

/-- A non-multipart `text/html` message carrying the example body. -/
def c7Payload : Payload := .node (pystr "text/html") (some c7Data) none

/-- C7 (confirmed): the Links block holds at most three pairwise
distinct anchor targets in first-seen order (a sublist of the collected
anchors), all clear of the blocklist, appended after the two-newline
label when any survive; and on the specification's example body the
extracted text contains "Hi", excludes the unsubscribe target, and ends
with the surviving link in a trailing Links block. -/
theorem C7_link_policy :
    (∀ text : PyStr,
      (goodLinksOf text).length ≤ 3 ∧
      (goodLinksOf text).Nodup ∧
      (goodLinksOf text).Sublist (findAnchors text) ∧
      ((goodLinksOf text).all fun l => !isBadLink l) = true ∧
      (goodLinksOf text ≠ [] →
        strip_html_tags text =
          stripTagsOnly text ++ pystr "\n\nLinks:\n" ++
            pyJoin (pystr "\n") (goodLinksOf text))) ∧
    get_email_body c7Payload = .ok (pystr "Hi no yes Links: http://good/1") ∧
    pyIn (pystr "Hi") (pystr "Hi no yes Links: http://good/1") = true ∧
    pyIn (pystr "http://x/unsubscribe") (pystr "Hi no yes Links: http://good/1") = false ∧
    pyIn (pystr "http://good/1") (pystr "Hi no yes Links: http://good/1") = true := by
  refine ⟨fun text => ⟨?_, ?_, goodLinksOf_sublist text, ?_, ?_⟩, by rfl, by decide, by decide, by decide⟩
  · exact List.length_take_le 3 _
  · exact ((List.take_sublist 3 _).nodup (pyDedup_nodup _))
  · rw [List.all_eq_true]
    intro l hl
    have : l ∈ (findAnchors text).filter fun x => !isBadLink x :=
      ((List.take_sublist 3 _).trans (pyDedup_sublist _)).subset hl
    exact (List.mem_filter.mp this).2
  · intro h
    by_cases hl : (findAnchors text).isEmpty
    · exact absurd (goodLinksOf_empty_of_no_anchors text (by simpa [List.isEmpty_iff] using hl)) h
    · have h2 : (goodLinksOf text).isEmpty = false := by
        cases hg : goodLinksOf text with
        | nil => exact absurd hg h
        | cons a as => rfl
      simp only [strip_html_tags, hl, h2, Bool.false_eq_true, if_false]

/-- Witness for C7: the block-append part applied at the example body,
whose surviving link list is non-empty. -/
theorem C7_link_policy_witness :
    goodLinksOf c7ExampleHtml ≠ [] ∧
    strip_html_tags c7ExampleHtml =
      stripTagsOnly c7ExampleHtml ++ pystr "\n\nLinks:\n" ++
        pyJoin (pystr "\n") (goodLinksOf c7ExampleHtml) :=
  ⟨by decide, (C7_link_policy.1 c7ExampleHtml).2.2.2.2 (by decide)⟩

/-! ## Claim C10 -/

/-- A nested part with nothing readable inside. -/
def c10Unreadable : Payload :=
  .node (pystr "multipart/mixed") none (some [.node (pystr "text/plain") none none])

/-- A nested part whose inner `text/plain` decodes to "Hello". -/
def c10Readable : Payload :=
  .node (pystr "multipart/mixed") none
    (some [.node (pystr "text/plain") (some (pystr "SGVsbG8=")) none])

/-- A message holding the unreadable nested part before the readable one. -/
def c10Parent : Payload :=
  .node (pystr "multipart/mixed") none (some [c10Unreadable, c10Readable])

/-- C10 (amended): a `text/plain` part whose decoded text is empty or
the literal `"null"` (case-insensitively, after trimming) is skipped,
falling through to the `text/html` part and then to nested parts, and a
payload none of whose parts is readable extracts the sentinel — but the
recursion returns the first nested part's result whenever it is
non-empty and not `"null"`, a test the sentinel itself passes. -/
theorem C10_unreadable_skip :
    (∀ (d t : PyStr) (ps : List Payload),
      decodeData d = .ok t → (t = [] ∨ pyLower (pyStrip t) = pystr "null") →
      findPlain (Payload.node (pystr "text/plain") (some d) none :: ps) = findPlain ps) ∧
    get_email_body (Payload.node (pystr "multipart/alternative") none
        (some [Payload.node (pystr "text/plain") (some (pystr "bnVsbA==")) none,
               Payload.node (pystr "text/html") (some (pystr "PGI-SGk8L2I-")) none])) =
      .ok (remove_double_whitespace (strip_html_tags (pystr "<b>Hi</b>"))) ∧
    get_email_body (Payload.node (pystr "multipart/alternative") none
        (some [Payload.node (pystr "text/plain") none none])) = .ok noReadable := by
  refine ⟨fun d t ps hdec hor => ?_, by rfl, by rfl⟩
  by_cases hd : d.isEmpty
  · simp [findPlain, Payload.mimeType, Payload.bodyData, hd]
  · rcases hor with h | h
    · simp [findPlain, Payload.mimeType, Payload.bodyData, hd, hdec, h]
    · simp [findPlain, Payload.mimeType, Payload.bodyData, hd, hdec, h]

/-- Witness for C10: the skip rule applied to a concrete part whose
decoded text is the literal `"null"`. -/
theorem C10_unreadable_skip_witness :
    decodeData (pystr "bnVsbA==") = .ok (pystr "null") ∧
    findPlain [Payload.node (pystr "text/plain") (some (pystr "bnVsbA==")) none] =
      findPlain [] :=
  ⟨by rfl, C10_unreadable_skip.1 _ _ [] (by rfl) (Or.inr (by decide))⟩

/-- C10 counterexample: the unreadable nested part's recursion yields
the sentinel, which passes the truthy-and-not-null test, so extraction
returns the sentinel even though the later sibling part yields readable
content — refuting that the sentinel is returned only when no part
yields readable content. -/
theorem C10_sentinel_shadows :
    get_email_body c10Parent = .ok noReadable ∧
    get_email_body c10Readable = .ok (pystr "Hello") ∧
    noReadable ≠ pystr "Hello" := by
  exact ⟨by rfl, by rfl, by decide⟩

/-! ## Claim C8 -/

/-- C8 (amended): the text handed to the send call never exceeds 4003
characters — a summary longer than 4000 becomes its 4000-character
prefix with the three-character truncation marker appended (4003 total,
below the transport's 4096 limit); shorter summaries pass unchanged. -/
theorem C8_truncation_bound :
    (∀ s : PyStr, (truncateForTelegram s).length ≤ 4003) ∧
    (∀ s : PyStr, s.length > 4000 →
      truncateForTelegram s = s.take 4000 ++ pystr "...") := by
  constructor
  · intro s
    by_cases h : s.length > 4000
    · have h3 : pystr "..." = ['.', '.', '.'] := rfl
      simp [truncateForTelegram, h, h3, List.length_take]
    · simp only [truncateForTelegram, h, if_false]
      omega
  · intro s h
    simp [truncateForTelegram, h]

theorem replicate4001_long : (List.replicate 4001 'a').length > 4000 := by
  rw [List.length_replicate]
  omega

/-- Witness for C8: the marker branch at a concrete 4001-character summary. -/
theorem C8_truncation_bound_witness :
    (List.replicate 4001 'a').length > 4000 ∧
    truncateForTelegram (List.replicate 4001 'a') =
      (List.replicate 4001 'a').take 4000 ++ pystr "..." :=
  ⟨replicate4001_long, C8_truncation_bound.2 _ replicate4001_long⟩

/-- C8 counterexample: a 4001-character summary is delivered as 4003
characters, exceeding the claimed 4000-character bound. -/
theorem C8_truncation_counterexample :
    (truncateForTelegram (List.replicate 4001 'a')).length = 4003 ∧
    4000 < (truncateForTelegram (List.replicate 4001 'a')).length := by
  have he : truncateForTelegram (List.replicate 4001 'a') =
      (List.replicate 4001 'a').take 4000 ++ pystr "..." := by
    unfold truncateForTelegram
    rw [if_pos replicate4001_long]
  have h : (truncateForTelegram (List.replicate 4001 'a')).length = 4003 := by
    have h3 : (pystr "...").length = 3 := rfl
    rw [he, List.length_append, List.length_take, List.length_replicate, h3]
    omega
  exact ⟨h, by omega⟩

/-! ## Claims C2 and C3: the polling cycle at concrete inputs -/

/-- A service double never consulted on the modelled failing paths. -/
def nullOracle : Oracle := fun _ _ => .error ()

/-- A minimal message detail for the cycle environments. -/
def dummyDetail : MsgDetail := ⟨[], .node (pystr "text/plain") none none⟩

/-- The empty cycle state: empty cache, no call made, empty seen-set
store, nothing sent. -/
def cs0 : CycleState := ⟨⟨[], 0⟩, [], []⟩

/-- Environment for C2: account "A" has invalid, unrefreshable
credentials; every other account (in particular "B") has a valid
credential and two new messages. -/
def envC2 : BotEnv where
  creds := fun a => if a.1 = pystr "A" then .invalidNoRefresh else .valid
  gmail := fun _ => ⟨[pystr "m1", pystr "m2"], fun _ => some dummyDetail⟩
  descriptor := fun _ => []
  oracle := nullOracle
  now := 0

/-- C2 evaluated at the failing input: account A's credential failure
is skipped silently (as specified), and account B has a usable client
and two new messages — yet the cycle delivers nothing and persists no
seen set, because B's unit raises `TypeError` at
`load_history(chat_id, email=email)` (history.load_history takes only
`chat_id`) and nothing in the cycle catches it. -/
theorem C2_cycle_crash :
    (pollCycle envC2 [(pystr "A", none), (pystr "B", none)] cs0).1.sent = [] ∧
    (pollCycle envC2 [(pystr "A", none), (pystr "B", none)] cs0).1.hist = [] ∧
    (pollCycle envC2 [(pystr "A", none), (pystr "B", none)] cs0).2 = some PyErr.typeError :=
  ⟨rfl, rfl, rfl⟩

/-- Environment for C3: a single account with a valid credential and
25 (= K + 5) new messages, all unseen. -/
def envC3 : BotEnv where
  creds := fun _ => .valid
  gmail := fun _ => ⟨(List.range 25).map (fun i => [Char.ofNat (65 + i)]), fun _ => some dummyDetail⟩
  descriptor := fun _ => []
  oracle := nullOracle
  now := 0

/-- C3 evaluated at the failing input: a batch of 25 new messages
persists no seen set at all — the cycle raises `TypeError` at the
`load_history(chat_id, email=email)` call before any message is
processed, and the batch-end
`save_history(chat_id, history, email=email)` call would raise the
same way — rather than persisting the most recent 20 identifiers. -/
theorem C3_batch_crash :
    (pollCycle envC3 [(pystr "C", none)] cs0).1.hist = [] ∧
    (pollCycle envC3 [(pystr "C", none)] cs0).1.sent = [] ∧
    (pollCycle envC3 [(pystr "C", none)] cs0).2 = some PyErr.typeError :=
  ⟨rfl, rfl, rfl⟩
